import Mathlib

/-!
Shallow embedding of the `clin-qc-tk` quality-control toolkit
(`qctk` Python package): the site/genotype data model (`qctk/models/vcf.py`),
the similarity engine (`qctk/compare/compare.py`), the genotype caller and the
k-mer based extraction path (`qctk/fastq/extract.py`), the reverse-complement
helper (`qctk/common.py`), the BED-interval writing of the BAM extraction path
(`qctk/bam/extract.py`) and the marker-site reader (`qctk/models/vcf.py`).

Python loops are modelled as structural recursion, Python `dict`s as
insertion-ordered association lists, fallible/dynamically-typed operations as
`Except`, and the floating-point threshold of the genotype caller as a
rational number.
-/

/-- The `Genotype` enumeration of `qctk/models/vcf.py` (values `"0/0"`,
`"0/1"`, `"1/1"`). -/
inductive Genotype
  | REF
  | HET
  | HOM
deriving DecidableEq

/-- The string value backing each `Genotype` enum member. -/
def Genotype.value : Genotype → String
  | .REF => "0/0"
  | .HET => "0/1"
  | .HOM => "1/1"

/-- Lexicographic (code-point) order on character lists, as Python compares
strings. -/
def charListLt : List Char → List Char → Bool
  | [], [] => false
  | [], _ :: _ => true
  | _ :: _, [] => false
  | a :: s, b :: t => if a < b then true else if b < a then false else charListLt s t

/-- Python `s < t` on strings: lexicographic by code point. -/
def pyStrLt (s t : String) : Bool := charListLt s.toList t.toList

/-- Whether the first character list is an initial segment of the second. -/
def charListIsInit : List Char → List Char → Bool
  | [], _ => true
  | _ :: _, [] => false
  | a :: s, b :: t => a == b && charListIsInit s t

/-- Python `s.startswith(pre)`. -/
def strStarts (s pre : String) : Bool := charListIsInit pre.toList s.toList

/-- The `Site` record of `qctk/models/vcf.py`. -/
structure Site where
  genome_release : String
  chromosome : String
  position : Nat
  reference : String
  alternative : String
deriving DecidableEq

/-- The `VariantStats` record of `qctk/models/vcf.py`; all three fields are
optional (`None` in Python). -/
structure VariantStats where
  genotype : Option Genotype := none
  total_cov : Option Nat := none
  alt_cov : Option Nat := none
deriving DecidableEq

/-- The `SiteStats` record of `qctk/models/vcf.py`. -/
structure SiteStats where
  site : Site
  stats : VariantStats
deriving DecidableEq

/-- The `Sample` record of `qctk/models/vcf.py`. -/
structure Sample where
  name : String
deriving DecidableEq

/-- The `SampleStats` fingerprint record of `qctk/models/vcf.py`. -/
structure SampleStats where
  sample : Sample
  site_stats : List SiteStats
deriving DecidableEq

/-- The `SimilarityPair` record of `qctk/models/vcf.py`.  Counts are `Int`
because `n_ibs1` is produced by subtraction in `_compute_stats`. -/
structure SimilarityPair where
  sample_i : String
  sample_j : String
  n_ibs0 : Int
  n_ibs1 : Int
  n_ibs2 : Int
  het_i : Int
  het_j : Int
  het_i_j : Int
deriving DecidableEq

/-- The `key` property of `SimilarityPair`. -/
def SimilarityPair.key (p : SimilarityPair) : String × String :=
  (p.sample_i, p.sample_j)

/-! ## Feature matrix construction (`NumpySampleStats.from_sample_stats`)

In `qctk/compare/compare.py` the per-site genotype value used to build the
boolean rows is `variant_stats.genotype or "0/0"`: a present genotype is a
`Genotype` enum member (truthy in Python, so kept as is), a missing genotype
is replaced by the raw string `"0/0"`.  The rows then compare that dynamic
value against the raw strings `"0/0"` and `"1/1"` with Python `==`/`!=`;
a plain-`Enum` member never compares equal to a string. -/

/-- A Python value that is either a `Genotype` enum member or a raw string. -/
inductive GtValue
  | enum (g : Genotype)
  | str (s : String)
deriving DecidableEq

/-- Python `==` between such a value and a string literal: an enum member is
never equal to a string; two strings compare by content. -/
def GtValue.eqStr : GtValue → String → Bool
  | .enum _, _ => false
  | .str s, t => s == t

/-- Python `variant_stats.genotype or "0/0"`. -/
def gtOrDefault : Option Genotype → GtValue
  | some g => .enum g
  | none => .str "0/0"

/-- The three boolean rows of the numpy array built by
`NumpySampleStats.from_sample_stats` (row 0: coverage mask, row 1: is-alt,
row 2: hom-alt). -/
structure FeatureArr where
  covered : List Bool
  is_alt : List Bool
  hom_alt : List Bool
deriving DecidableEq

/-- The `NumpySampleStats` wrapper of `qctk/compare/compare.py`. -/
structure NumpySampleStats where
  stats : SampleStats
  arr : FeatureArr
deriving DecidableEq

/-- `NumpySampleStats.from_sample_stats`: build the boolean feature rows from
a fingerprint, following the source line by line (`total_cov or 0`,
`genotype or "0/0"`, `dp > min_coverage`, `gt != "0/0"`, `gt == "1/1"`). -/
def NumpySampleStats.from_sample_stats (sample_stats : SampleStats)
    (min_coverage : Int) : NumpySampleStats :=
  let depths := sample_stats.site_stats.map
    (fun site_stats => ((site_stats.stats.total_cov.getD 0 : Nat) : Int))
  let genotypes := sample_stats.site_stats.map
    (fun site_stats => gtOrDefault site_stats.stats.genotype)
  { stats := sample_stats
    arr :=
      { covered := depths.map (fun dp => decide (dp > min_coverage))
        is_alt := genotypes.map (fun gt => !(gt.eqStr "0/0"))
        hom_alt := genotypes.map (fun gt => gt.eqStr "1/1") } }

/-! ## Pairwise statistics (`_compute_stats`) -/

/-- Elementwise boolean AND of two numpy boolean rows. -/
def band (a b : List Bool) : List Bool := List.zipWith and a b

/-- Elementwise boolean OR of two numpy boolean rows. -/
def bor (a b : List Bool) : List Bool := List.zipWith or a b

/-- Elementwise boolean NOT of a numpy boolean row. -/
def bnot (a : List Bool) : List Bool := a.map not

/-- `np.count_nonzero` on a boolean row (as an integer, since the similarity
counts are combined by integer subtraction). -/
def countTrue (l : List Bool) : Int := ((l.filter id).length : Int)

/-- `_compute_stats` of `qctk/compare/compare.py`, returning
`(n_ibs_0, n_ibs_1, n_ibs_2, het_i, het_j, het_i_j)`.  Note two quirks kept
from the source: the shortcut `lhs_hom_alt` is read from `rhs[2]` (not
`lhs[2]`), and the `n_ibs_2` expression repeats the `lhs_ref & rhs_ref`
term. -/
def compute_stats (lhs rhs : FeatureArr) : Int × Int × Int × Int × Int × Int :=
  let lhs_mask := lhs.covered
  let lhs_is_alt := lhs.is_alt
  let lhs_hom_alt := rhs.hom_alt
  let rhs_mask := rhs.covered
  let rhs_is_alt := rhs.is_alt
  let rhs_hom_alt := rhs.hom_alt
  let mask := band lhs_mask rhs_mask
  let lhs_ref := band (bnot lhs_is_alt) mask
  let rhs_ref := band (bnot rhs_is_alt) mask
  let arr_i := band (band lhs_is_alt (bnot lhs_hom_alt)) mask
  let arr_j := band (band rhs_is_alt (bnot rhs_hom_alt)) mask
  let arr_ij := band (band arr_i arr_j) mask
  let het_i := countTrue arr_i
  let het_j := countTrue arr_j
  let het_i_j := countTrue arr_ij
  let n_ibs_0 := countTrue (band (bor (band lhs_ref rhs_hom_alt) (band rhs_ref lhs_hom_alt)) mask)
  let n_ibs_2 := countTrue
    (band (bor (bor (band lhs_hom_alt rhs_hom_alt) (band lhs_ref rhs_ref)) (band lhs_ref rhs_ref)) mask)
  let n_ibs_1 := countTrue mask - n_ibs_0 - n_ibs_2
  (n_ibs_0, n_ibs_1, n_ibs_2, het_i, het_j, het_i_j)

/-- `compute_similarity` of `qctk/compare/compare.py` (its `assert` that the
left name precedes the right one is enforced by the only caller's guard). -/
def compute_similarity (left right : NumpySampleStats) : SimilarityPair :=
  let vals := compute_stats left.arr right.arr
  { sample_i := left.stats.sample.name
    sample_j := right.stats.sample.name
    n_ibs0 := vals.1
    n_ibs1 := vals.2.1
    n_ibs2 := vals.2.2.1
    het_i := vals.2.2.2.1
    het_j := vals.2.2.2.2.1
    het_i_j := vals.2.2.2.2.2 }

/-! ## Genotype caller (`_call_genotype` in `qctk/fastq/extract.py`)

The Python float threshold and the fraction `alt_depth / total_depth` are
modelled over the rationals; the comparison structure (strict `<`, then
strict `>`) is exactly that of the source. -/

/-- `_call_genotype(threshold, ref_depth, alt_depth)`. -/
def call_genotype (threshold : ℚ) (ref_depth alt_depth : Nat) : Option Genotype :=
  let total_depth := ref_depth + alt_depth
  if total_depth = 0 then
    none
  else
    let frac : ℚ := (alt_depth : ℚ) / (total_depth : ℚ)
    if frac < threshold then some .REF
    else if frac > 1 - threshold then some .HOM
    else some .HET

/-! ## Reverse complement (`revcomp` in `qctk/common.py`) -/

/-- The `_RC` lookup table of `qctk/common.py` with its `dict.get(x, x)`
fallback: complement a single nucleotide character, keeping everything not in
`ACGTacgt` unchanged. -/
def rcChar (c : Char) : Char :=
  if c = 'c' then 'g'
  else if c = 'C' then 'G'
  else if c = 'g' then 'c'
  else if c = 'G' then 'C'
  else if c = 't' then 'a'
  else if c = 'T' then 'A'
  else if c = 'a' then 't'
  else if c = 'A' then 'T'
  else c

/-- `revcomp` of `qctk/common.py`: `"".join(map(lambda x: _RC.get(x, x), nts))`.
The source maps the complement table over the characters in their original
order. -/
def revcomp (nts : String) : String :=
  String.mk (nts.toList.map rcChar)

/-- The reverse complement as the specification's glossary defines it
(modelled from the spec, for comparison with `revcomp`): reverse the order of
the bases and complement each base. -/
def spec_reverse_complement (nts : String) : String :=
  String.mk ((nts.toList.map rcChar).reverse)

/-! ## K-mer extraction path (`qctk/fastq/extract.py`) -/

/-- The `KmerInfo` record of `qctk/models/fastq.py`. -/
structure KmerInfo where
  site : Site
  ref_kmer : String
deriving DecidableEq

/-- The `alt_kmer` property of `KmerInfo`: replace the middle base of
`ref_kmer` by `site.alternative`
(`ref_kmer[:len//2] + alternative + ref_kmer[len//2+1:]`). -/
def KmerInfo.alt_kmer (ki : KmerInfo) : String :=
  let l := ki.ref_kmer.toList
  let n := l.length
  String.mk (l.take (n / 2) ++ ki.site.alternative.toList ++ l.drop (n / 2 + 1))

/-- One iteration of the result loop of `_fastq_extract_impl`: given the final
counter state (a map from k-mer string to tally), build the `SiteStats` for
one `KmerInfo`, with ref/alt depth summed over the forward k-mer and its
`revcomp`. -/
def siteStatsFromCounts (threshold : ℚ) (counts : String → Nat)
    (kmer_info : KmerInfo) : SiteStats :=
  let ref_kmer := kmer_info.ref_kmer
  let ref_depth := counts ref_kmer + counts (revcomp ref_kmer)
  let alt_kmer := kmer_info.alt_kmer
  let alt_depth := counts alt_kmer + counts (revcomp alt_kmer)
  { site := kmer_info.site
    stats :=
      { genotype := call_genotype threshold ref_depth alt_depth
        total_cov := some (ref_depth + alt_depth)
        alt_cov := some alt_depth } }

/-- The result list built by `_fastq_extract_impl` after all reads are
tallied: one `SiteStats` per `KmerInfo`, in order. -/
def fastq_extract_results (threshold : ℚ) (counts : String → Nat)
    (kmer_infos : List KmerInfo) : List SiteStats :=
  kmer_infos.map (siteStatsFromCounts threshold counts)

/-! ## BAM extraction path: BED intervals (`qctk/bam/extract.py`) -/

/-- One row of the BED file written by `write_sites_bed`:
`(site.chromosome, site.position - 1, site.position)`. -/
structure BedRow where
  chrom : String
  chromStart : Int
  chromEnd : Int
deriving DecidableEq

/-- The `identity` chromosome-name transform of `qctk/bam/extract.py`. -/
def identity (x : String) : String := x

/-- The chromosome-name transform of `qctk/bam/extract.py` that prepends
`"chr"` (source name: the add-prefix helper). -/
def addChr (x : String) : String := "chr" ++ x

/-- The chromosome-name transform of `qctk/bam/extract.py` that drops the
first three characters (source name: the strip-prefix helper, `x[3:]`). -/
def stripChr (x : String) : String := x.drop 3

/-- `write_sites_bed` of `qctk/bam/extract.py` in the `max_sites`-unset case
(the `not config.max_sites` branch, which admits every site).  The
`func_pref` argument is accepted but, as in the source, never applied to the
chromosome names: each row prints `site.chromosome` directly. -/
def write_sites_bed (func_pref : String → String) (sites : List Site) :
    List BedRow :=
  sites.map (fun site =>
    { chrom := site.chromosome
      chromStart := (site.position : Int) - 1
      chromEnd := (site.position : Int) })

/-- The transform choice of `_bam_extract_impl_for_file` (lines 142-147):
strip when sites are `"chr"`-prefixed and alignments are not, add when the
converse, identity otherwise. -/
def choose_func_pref (sites_have_chr alis_have_chr : Bool) :
    String → String :=
  if sites_have_chr && !alis_have_chr then stripChr
  else if !sites_have_chr && alis_have_chr then addChr
  else identity

/-- The BED intervals handed to the external caller by
`_bam_extract_impl_for_file`: the prefix conventions are read off the first
site and the first reference sequence name, a transform is chosen, and
`write_sites_bed` is called with it (`max_sites` unset). -/
def bam_extract_bed (site0 : Site) (sites_rest : List Site)
    (ref0 : String) : List BedRow :=
  let sites_have_chr := strStarts site0.chromosome "chr"
  let alis_have_chr := strStarts ref0 "chr"
  let func_pref := choose_func_pref sites_have_chr alis_have_chr
  write_sites_bed func_pref (site0 :: sites_rest)

/-! ## Marker-site reader (`read_sites` in `qctk/models/vcf.py`) -/

/-- The shape of one VCF record consumed by `read_sites` (`CHROM`, `POS`,
`REF`, `ALT[0].value`). -/
structure VcfRecord where
  chrom : String
  pos : Nat
  ref : String
  alt0 : String
deriving DecidableEq

/-- The `Site` built from one VCF record inside `read_sites`. -/
def siteOfRecord (genome_release : String) (r : VcfRecord) : Site :=
  { genome_release := genome_release
    chromosome := r.chrom
    position := r.pos
    reference := r.ref
    alternative := r.alt0 }

/-- The inner loop of `read_sites`: `for lineno, record in enumerate(reader)`
appends while `not max_sites or lineno < max_sites` and breaks otherwise
(`not max_sites` is true for Python `None` and for `0`). -/
def readSitesInner (genome_release : String) (records : List VcfRecord)
    (max_sites : Option Nat) : List Site :=
  match max_sites with
  | none => records.map (siteOfRecord genome_release)
  | some 0 => records.map (siteOfRecord genome_release)
  | some (m + 1) => (records.take (m + 1)).map (siteOfRecord genome_release)

/-- `read_sites` of `qctk/models/vcf.py` over the stream of records: the outer
`for record in reader` consumes the first record from the reader, after which
the nested `for lineno, record in enumerate(reader)` iterates over the
remaining records; when the inner loop exhausts the reader the outer loop
terminates. -/
def read_sites (genome_release : String) (records : List VcfRecord)
    (max_sites : Option Nat) : List Site :=
  match records with
  | [] => []
  | _ :: rest => readSitesInner genome_release rest max_sites


/-! ## The compare/merge run (`compare_compare_run` in `qctk/compare/compare.py`)

Python `dict`s are modelled as insertion-ordered association lists: an
assignment to an existing key replaces the value in place, an assignment to a
new key appends.  The similarity files on disk appear as the lists of pairs
they decode to; the fingerprint files appear as the `SampleStats` they decode
to, in sorted-path order. -/

/-- Assignment `d[k] = v` on an insertion-ordered Python dict. -/
def dictInsert {kappa alpha : Type} [DecidableEq kappa]
    (d : List (kappa × alpha)) (k : kappa) (v : alpha) : List (kappa × alpha) :=
  if d.any (fun kv => kv.1 = k) then
    d.map (fun kv => if kv.1 = k then (k, v) else kv)
  else
    d ++ [(k, v)]

/-- Membership test `k in d` on a Python dict. -/
def dictContains {kappa alpha : Type} [DecidableEq kappa]
    (d : List (kappa × alpha)) (k : kappa) : Bool :=
  d.any (fun kv => kv.1 = k)

/-- Lookup `d.get(k)` on a Python dict. -/
def dictGet {kappa alpha : Type} [DecidableEq kappa]
    (d : List (kappa × alpha)) (k : kappa) : Option alpha :=
  (d.find? (fun kv => kv.1 = k)).map Prod.snd

/-- A value stored in the run's `similarity_pairs` dict.  The dict is
dynamically typed: the load phase stores whole decoded file contents (lists),
the compute phase stores single `SimilarityPair` objects. -/
inductive SimValue
  | pair (p : SimilarityPair)
  | list (l : List SimilarityPair)
deriving DecidableEq

/-- The Python attribute access `stats.key` where `stats` was decoded as
`typing.List[vcf.SimilarityPair]`: a Python `list` object has no attribute
`key`, so the access raises `AttributeError` unconditionally. -/
def pyListKeyAttr (stats : List SimilarityPair) :
    Except String (String × String) :=
  Except.error "AttributeError: 'list' object has no attribute 'key'"

/-- The similarity-loading loop of `compare_compare_run` (lines 116-121): for
every `*-sim.json` file, decode it to a list and evaluate `stats.key` to use
as the dict key. -/
def loadSimilarityPairs (sim_files : List (List SimilarityPair)) :
    Except String (List ((String × String) × SimValue)) :=
  match sim_files with
  | [] => Except.ok []
  | stats :: rest =>
    match pyListKeyAttr stats with
    | Except.error e => Except.error e
    | Except.ok key =>
      match loadSimilarityPairs rest with
      | Except.error e => Except.error e
      | Except.ok d => Except.ok (dictInsert d key (SimValue.list stats))

/-- The fingerprint-loading loop of `compare_compare_run` (lines 107-114):
build the `sample_stats` dict keyed by sample name. -/
def loadSampleStats (stats_files : List SampleStats) (min_cov : Int) :
    List (String × NumpySampleStats) :=
  stats_files.foldl
    (fun d stats =>
      dictInsert d stats.sample.name
        (NumpySampleStats.from_sample_stats stats min_cov))
    []

/-- The inner `for right in sample_stats.values()` loop of the compute phase
(lines 124-128), for a fixed `left`. -/
def computePairsInner (left : NumpySampleStats)
    (rights : List NumpySampleStats)
    (known : List ((String × String) × SimValue)) :
    List ((String × String) × SimValue) :=
  match rights with
  | [] => known
  | right :: rest =>
    let key := (left.stats.sample.name, right.stats.sample.name)
    let known :=
      if pyStrLt key.1 key.2 && !(dictContains known key) then
        dictInsert known key (SimValue.pair (compute_similarity left right))
      else
        known
    computePairsInner left rest known

/-- The outer `for left in sample_stats.values()` loop of the compute phase. -/
def computePairs (lefts rights : List NumpySampleStats)
    (known : List ((String × String) × SimValue)) :
    List ((String × String) × SimValue) :=
  match lefts with
  | [] => known
  | left :: rest => computePairs rest rights (computePairsInner left rights known)

/-- `out_sims.setdefault(name, {})[pair.key] = pair` for one side of a pair. -/
def addOutSim (acc : List (String × List ((String × String) × SimilarityPair)))
    (name : String) (p : SimilarityPair) :
    List (String × List ((String × String) × SimilarityPair)) :=
  let inner := (dictGet acc name).getD []
  dictInsert acc name (dictInsert inner p.key p)

/-- The loop over `similarity_pairs.values()` of the write phase (lines
131-134).  Accessing `.sample_i` on a value that is a decoded list (rather
than a `SimilarityPair`) raises `AttributeError`. -/
def buildOutSims (sims : List ((String × String) × SimValue))
    (acc : List (String × List ((String × String) × SimilarityPair))) :
    Except String (List (String × List ((String × String) × SimilarityPair))) :=
  match sims with
  | [] => Except.ok acc
  | (_, SimValue.list _) :: _ =>
    Except.error "AttributeError: 'list' object has no attribute 'sample_i'"
  | (_, SimValue.pair p) :: rest =>
    buildOutSims rest (addOutSim (addOutSim acc p.sample_i p) p.sample_j p)

/-- The total order used by Python's `sorted` on `attrs`-generated
`SimilarityPair` objects: lexicographic over the field tuple. -/
def simPairLeb (p q : SimilarityPair) : Bool :=
  if p.sample_i ≠ q.sample_i then pyStrLt p.sample_i q.sample_i
  else if p.sample_j ≠ q.sample_j then pyStrLt p.sample_j q.sample_j
  else if p.n_ibs0 ≠ q.n_ibs0 then p.n_ibs0 < q.n_ibs0
  else if p.n_ibs1 ≠ q.n_ibs1 then p.n_ibs1 < q.n_ibs1
  else if p.n_ibs2 ≠ q.n_ibs2 then p.n_ibs2 < q.n_ibs2
  else if p.het_i ≠ q.het_i then p.het_i < q.het_i
  else if p.het_j ≠ q.het_j then p.het_j < q.het_j
  else p.het_i_j ≤ q.het_i_j

/-- Insert an element into an already sorted list (ordering by `le`). -/
def insertSorted {alpha : Type} (le : alpha → alpha → Bool) (x : alpha) :
    List alpha → List alpha
  | [] => [x]
  | y :: ys => if le x y then x :: y :: ys else y :: insertSorted le x ys

/-- `sorted(...)` on a list of `SimilarityPair` values. -/
def sortSimPairs (l : List SimilarityPair) : List SimilarityPair :=
  l.foldr (insertSorted simPairLeb) []

/-- One similarity file as (re)written by the write phase: the sample name it
is stored under and the sorted list of pairs dumped into it. -/
structure SimWrite where
  name : String
  pairs : List SimilarityPair
deriving DecidableEq

/-- The write phase of `compare_compare_run` (lines 130-139): group every
pair under both of its sample names, then write each touched sample's file
with its sorted pair list. -/
def writeSimilarity (sims : List ((String × String) × SimValue)) :
    Except String (List SimWrite) :=
  match buildOutSims sims [] with
  | Except.error e => Except.error e
  | Except.ok out_sims =>
    Except.ok (out_sims.map (fun nv =>
      { name := nv.1, pairs := sortSimPairs (nv.2.map Prod.snd) }))

/-- `compare_compare_run` after the storage-path checks, over the decoded
store contents: load fingerprints, load similarity files, compute the missing
pairs (only keys with `name_i < name_j` that are not yet known), and rewrite
the similarity file of every touched sample.  An uncaught Python exception is
an `Except.error`. -/
def compare_compare_run (stats_files : List SampleStats)
    (sim_files : List (List SimilarityPair)) (min_cov : Int) :
    Except String (List SimWrite) :=
  let sample_stats := loadSampleStats stats_files min_cov
  match loadSimilarityPairs sim_files with
  | Except.error e => Except.error e
  | Except.ok known =>
    let values := sample_stats.map Prod.snd
    let similarity_pairs := computePairs values values known
    writeSimilarity similarity_pairs

/-! ## Concrete fixtures

The two-sample fixture mirrors the repository's compare smoke test: two sites
on chromosome 1, sample `singleton1` heterozygous at site 1 and reference at
site 2, sample `singleton2` the converse, coverage 30 everywhere. -/

/-- A marker site of the two-sample fixture. -/
def fixSite (pos : Nat) : Site :=
  { genome_release := "GRCh37", chromosome := "1", position := pos
    reference := "A", alternative := "T" }

/-- Fingerprint of sample `singleton1` in the two-sample fixture. -/
def fixStats1 : SampleStats :=
  { sample := { name := "singleton1" }
    site_stats :=
      [ { site := fixSite 1
          stats := { genotype := some .HET, total_cov := some 30, alt_cov := some 15 } }
      , { site := fixSite 2
          stats := { genotype := some .REF, total_cov := some 30, alt_cov := some 0 } } ] }

/-- Fingerprint of sample `singleton2` in the two-sample fixture. -/
def fixStats2 : SampleStats :=
  { sample := { name := "singleton2" }
    site_stats :=
      [ { site := fixSite 1
          stats := { genotype := some .REF, total_cov := some 30, alt_cov := some 0 } }
      , { site := fixSite 2
          stats := { genotype := some .HET, total_cov := some 30, alt_cov := some 15 } } ] }

/-- A one-sample fingerprint with a single covered site whose stored genotype
is `REF` (coverage 5). -/
def fixStatsRef : SampleStats :=
  { sample := { name := "sampleA" }
    site_stats :=
      [ { site := fixSite 1
          stats := { genotype := some .REF, total_cov := some 5, alt_cov := some 0 } } ] }

/-- A two-site fingerprint whose stored genotypes are `REF` and `HOM`, both
covered (coverage 5). -/
def fixStatsRefHom : SampleStats :=
  { sample := { name := "sampleB" }
    site_stats :=
      [ { site := fixSite 1
          stats := { genotype := some .REF, total_cov := some 5, alt_cov := some 0 } }
      , { site := fixSite 2
          stats := { genotype := some .HOM, total_cov := some 5, alt_cov := some 5 } } ] }

/-- A `KmerInfo` fixture (site with alternative `T`, reference 3-mer `ACA`). -/
def fixKmerInfo : KmerInfo :=
  { site := fixSite 1, ref_kmer := "ACA" }

/-- A `VcfRecord` fixture. -/
def fixRecord : VcfRecord :=
  { chrom := "1", pos := 100, ref := "A", alt0 := "T" }

/-- The pair computed on the two-sample fixture (matching the repository's
compare smoke test expectations). -/
def fixPair : SimilarityPair :=
  { sample_i := "singleton1", sample_j := "singleton2"
    n_ibs0 := 0, n_ibs1 := 2, n_ibs2 := 0, het_i := 2, het_j := 2, het_i_j := 2 }

/-- A boolean row consisting only of `false`. -/
def allFalse (l : List Bool) : Prop := ∀ b ∈ l, b = false

/-! ## Helper lemmas on boolean rows -/

theorem countTrue_nil : countTrue [] = 0 := rfl

theorem countTrue_cons (b : Bool) (l : List Bool) :
    countTrue (b :: l) = (if b then 1 else 0) + countTrue l := by
  cases b <;> simp [countTrue, List.filter_cons] <;> omega

theorem countTrue_nonneg (l : List Bool) : 0 ≤ countTrue l :=
  Int.natCast_nonneg _

theorem countTrue_band_le (x : List Bool) :
    ∀ m : List Bool, countTrue (band x m) ≤ countTrue m := by
  induction x with
  | nil => intro m; simpa [band, countTrue] using countTrue_nonneg m
  | cons a x ih =>
    intro m
    cases m with
    | nil => simp [band, countTrue]
    | cons b m =>
      have h := ih m
      show countTrue ((a && b) :: band x m) ≤ countTrue (b :: m)
      rw [countTrue_cons, countTrue_cons]
      cases a <;> cases b <;> simp <;> omega

theorem allFalse_nil : allFalse [] := by
  intro b hb
  simp at hb

theorem allFalse_cons {b : Bool} {l : List Bool} :
    allFalse (b :: l) ↔ b = false ∧ allFalse l := by
  constructor
  · intro h
    exact ⟨h b (List.mem_cons_self b l), fun c hc => h c (List.mem_cons_of_mem b hc)⟩
  · rintro ⟨hb, hl⟩ c hc
    rcases List.mem_cons.mp hc with rfl | hc
    · exact hb
    · exact hl c hc

theorem allFalse_map_false {alpha : Type} (l : List alpha) :
    allFalse (l.map fun _ => false) := by
  intro b hb
  rcases List.mem_map.mp hb with ⟨a, _, rfl⟩
  rfl

theorem allFalse_band_left : ∀ (x y : List Bool), allFalse x → allFalse (band x y)
  | [], _, _ => by intro b hb; simp [band] at hb
  | _ :: _, [], _ => by intro b hb; simp [band] at hb
  | a :: x, c :: y, h => by
    rw [show band (a :: x) (c :: y) = (a && c) :: band x y from rfl, allFalse_cons]
    rcases allFalse_cons.mp h with ⟨ha, hx⟩
    exact ⟨by simp [ha], allFalse_band_left x y hx⟩

theorem allFalse_band_right : ∀ (x y : List Bool), allFalse y → allFalse (band x y)
  | [], _, _ => by intro b hb; simp [band] at hb
  | _ :: _, [], _ => by intro b hb; simp [band] at hb
  | a :: x, c :: y, h => by
    rw [show band (a :: x) (c :: y) = (a && c) :: band x y from rfl, allFalse_cons]
    rcases allFalse_cons.mp h with ⟨hc, hy⟩
    exact ⟨by simp [hc], allFalse_band_right x y hy⟩

theorem allFalse_bor : ∀ (x y : List Bool), allFalse x → allFalse y → allFalse (bor x y)
  | [], _, _, _ => by intro b hb; simp [bor] at hb
  | _ :: _, [], _, _ => by intro b hb; simp [bor] at hb
  | a :: x, c :: y, hx, hy => by
    rw [show bor (a :: x) (c :: y) = (a || c) :: bor x y from rfl, allFalse_cons]
    rcases allFalse_cons.mp hx with ⟨ha, hx'⟩
    rcases allFalse_cons.mp hy with ⟨hc, hy'⟩
    exact ⟨by simp [ha, hc], allFalse_bor x y hx' hy'⟩

theorem countTrue_eq_zero {l : List Bool} (h : allFalse l) : countTrue l = 0 := by
  induction l with
  | nil => rfl
  | cons b l ih =>
    rw [countTrue_cons, h b (by simp), ih (fun b hb => h b (by simp [hb]))]
    simp

theorem map_congr_mem {alpha beta : Type} {l : List alpha} {f g : alpha → beta}
    (h : ∀ a ∈ l, f a = g a) : l.map f = l.map g := by
  induction l with
  | nil => rfl
  | cons a l ih =>
    simp only [List.map_cons]
    rw [h a (by simp), ih (fun a ha => h a (by simp [ha]))]

theorem zipWith_map_same {alpha : Type} (op : Bool → Bool → Bool)
    (f g : alpha → Bool) (l : List alpha) :
    List.zipWith op (l.map f) (l.map g) = l.map (fun x => op (f x) (g x)) := by
  induction l with
  | nil => rfl
  | cons a l ih => simp [ih]

/-- The `hom_alt` row built by `from_sample_stats` is identically false: the
stored genotype is either a `Genotype` enum member (never `==` the raw string
`"1/1"`) or the default string `"0/0"`. -/
theorem from_sample_stats_hom_alt (s : SampleStats) (min_cov : Int) :
    (NumpySampleStats.from_sample_stats s min_cov).arr.hom_alt =
      s.site_stats.map (fun _ => false) := by
  simp only [NumpySampleStats.from_sample_stats, List.map_map]
  apply map_congr_mem
  intro ss _
  cases h : ss.stats.genotype <;> simp [Function.comp, gtOrDefault, GtValue.eqStr, h]

/-- The `is_alt` row built by `from_sample_stats` is true exactly where a
genotype is present (any present genotype is an enum member and therefore
`!= "0/0"`). -/
theorem from_sample_stats_is_alt (s : SampleStats) (min_cov : Int) :
    (NumpySampleStats.from_sample_stats s min_cov).arr.is_alt =
      s.site_stats.map (fun ss => !ss.stats.genotype.isNone) := by
  simp only [NumpySampleStats.from_sample_stats, List.map_map]
  apply map_congr_mem
  intro ss _
  cases h : ss.stats.genotype <;> simp [Function.comp, gtOrDefault, GtValue.eqStr, h]

/-- The `covered` row built by `from_sample_stats`. -/
theorem from_sample_stats_covered (s : SampleStats) (min_cov : Int) :
    (NumpySampleStats.from_sample_stats s min_cov).arr.covered =
      s.site_stats.map
        (fun ss => decide (((ss.stats.total_cov.getD 0 : Nat) : Int) > min_cov)) := by
  simp only [NumpySampleStats.from_sample_stats, List.map_map]
  rfl

/-- When the right-hand `hom_alt` row is identically false (as is the case
for every row built by `from_sample_stats`), the three IBS counts of
`compute_stats` are non-negative and sum to the count of the combined
coverage mask. -/
theorem compute_stats_partition_of_hom_false (lhs rhs : FeatureArr)
    (h : allFalse rhs.hom_alt) :
    0 ≤ (compute_stats lhs rhs).1 ∧ 0 ≤ (compute_stats lhs rhs).2.1 ∧
    0 ≤ (compute_stats lhs rhs).2.2.1 ∧
    (compute_stats lhs rhs).1 + (compute_stats lhs rhs).2.1 +
        (compute_stats lhs rhs).2.2.1 =
      countTrue (band lhs.covered rhs.covered) := by
  simp only [compute_stats]
  refine ⟨countTrue_nonneg _, ?_, countTrue_nonneg _, by ring⟩
  have h0 : countTrue (band (bor
      (band (band (bnot lhs.is_alt) (band lhs.covered rhs.covered)) rhs.hom_alt)
      (band (band (bnot rhs.is_alt) (band lhs.covered rhs.covered)) rhs.hom_alt))
      (band lhs.covered rhs.covered)) = 0 :=
    countTrue_eq_zero (allFalse_band_left _ _
      (allFalse_bor _ _ (allFalse_band_right _ _ h) (allFalse_band_right _ _ h)))
  have h2 := countTrue_band_le
    (bor (bor (band rhs.hom_alt rhs.hom_alt)
        (band (band (bnot lhs.is_alt) (band lhs.covered rhs.covered))
          (band (bnot rhs.is_alt) (band lhs.covered rhs.covered))))
      (band (band (bnot lhs.is_alt) (band lhs.covered rhs.covered))
        (band (bnot rhs.is_alt) (band lhs.covered rhs.covered))))
    (band lhs.covered rhs.covered)
  omega

/-- C1 (counterexample): on a two-site fingerprint whose stored genotypes are
`REF` and `HOM` (both covered), the feature matrix has `is_alt = [true, true]`
and `hom_alt = [false, false]`, so the claimed rows
(`is_alt = (genotype ≠ REF)`, i.e. `[false, true]`, and
`hom_alt = (genotype == HOM)`, i.e. `[false, true]`) fail. -/
theorem feature_matrix_counterexample :
    (NumpySampleStats.from_sample_stats fixStatsRefHom 0).arr.is_alt = [true, true] ∧
    (NumpySampleStats.from_sample_stats fixStatsRefHom 0).arr.hom_alt = [false, false] ∧
    ¬ ((NumpySampleStats.from_sample_stats fixStatsRefHom 0).arr.is_alt = [false, true] ∧
       (NumpySampleStats.from_sample_stats fixStatsRefHom 0).arr.hom_alt = [false, true]) := by
  decide

/-- C1 (amended): per site, `covered = (total_cov or 0) > min_coverage`,
`is_alt` is true exactly when a genotype is stored (any stored genotype,
including `REF`, is an enum member and therefore `!= "0/0"`), and `hom_alt`
is false at every site (a stored genotype is never `==` the raw string
`"1/1"`); a site with no genotype is non-alt and non-hom. -/
theorem feature_matrix_amended (s : SampleStats) (min_cov : Int) :
    (NumpySampleStats.from_sample_stats s min_cov).arr.covered =
      s.site_stats.map
        (fun ss => decide (((ss.stats.total_cov.getD 0 : Nat) : Int) > min_cov)) ∧
    (NumpySampleStats.from_sample_stats s min_cov).arr.is_alt =
      s.site_stats.map (fun ss => !ss.stats.genotype.isNone) ∧
    (NumpySampleStats.from_sample_stats s min_cov).arr.hom_alt =
      s.site_stats.map (fun _ => false) :=
  ⟨from_sample_stats_covered s min_cov, from_sample_stats_is_alt s min_cov,
    from_sample_stats_hom_alt s min_cov⟩

/-- C2: for the feature matrices built from any two fingerprints, the three
counts `n_ibs0`, `n_ibs1`, `n_ibs2` returned by the similarity computation
are non-negative and sum exactly to `count(mask)` where
`mask = covered_i AND covered_j`. -/
theorem similarity_counts_partition (s1 s2 : SampleStats) (min_cov : Int) :
    0 ≤ (compute_stats (NumpySampleStats.from_sample_stats s1 min_cov).arr
          (NumpySampleStats.from_sample_stats s2 min_cov).arr).1 ∧
    0 ≤ (compute_stats (NumpySampleStats.from_sample_stats s1 min_cov).arr
          (NumpySampleStats.from_sample_stats s2 min_cov).arr).2.1 ∧
    0 ≤ (compute_stats (NumpySampleStats.from_sample_stats s1 min_cov).arr
          (NumpySampleStats.from_sample_stats s2 min_cov).arr).2.2.1 ∧
    (compute_stats (NumpySampleStats.from_sample_stats s1 min_cov).arr
          (NumpySampleStats.from_sample_stats s2 min_cov).arr).1 +
      (compute_stats (NumpySampleStats.from_sample_stats s1 min_cov).arr
          (NumpySampleStats.from_sample_stats s2 min_cov).arr).2.1 +
      (compute_stats (NumpySampleStats.from_sample_stats s1 min_cov).arr
          (NumpySampleStats.from_sample_stats s2 min_cov).arr).2.2.1 =
      countTrue (band (NumpySampleStats.from_sample_stats s1 min_cov).arr.covered
        (NumpySampleStats.from_sample_stats s2 min_cov).arr.covered) :=
  compute_stats_partition_of_hom_false _ _
    (by rw [from_sample_stats_hom_alt]; exact allFalse_map_false _)

/-- C3 (counterexample): comparing the fingerprint with a single covered
`REF` site against itself yields `n_ibs2 = 0`, while the covered site count
is `1`, contradicting `n_ibs2 == (covered site count)`. -/
theorem self_similarity_counterexample :
    (compute_stats (NumpySampleStats.from_sample_stats fixStatsRef 0).arr
        (NumpySampleStats.from_sample_stats fixStatsRef 0).arr).2.2.1 = 0 ∧
    countTrue (NumpySampleStats.from_sample_stats fixStatsRef 0).arr.covered = 1 ∧
    (0 : Int) ≠ 1 := by
  decide

/-- C3 (amended): for any fingerprint compared against itself, `n_ibs0 = 0`,
and `n_ibs2` equals the number of sites that are both covered and have no
stored genotype (every present genotype counts as alt in the feature matrix,
so only genotype-absent covered sites land in the `ref AND ref` term of
`n_ibs2`, and the hom-alt terms are identically false). -/
theorem self_similarity_amended (s : SampleStats) (min_cov : Int) :
    (compute_stats (NumpySampleStats.from_sample_stats s min_cov).arr
        (NumpySampleStats.from_sample_stats s min_cov).arr).1 = 0 ∧
    (compute_stats (NumpySampleStats.from_sample_stats s min_cov).arr
        (NumpySampleStats.from_sample_stats s min_cov).arr).2.2.1 =
      countTrue (s.site_stats.map (fun ss =>
        ss.stats.genotype.isNone &&
          decide (((ss.stats.total_cov.getD 0 : Nat) : Int) > min_cov))) := by
  constructor
  · simp only [compute_stats]
    exact countTrue_eq_zero (allFalse_band_left _ _ (allFalse_bor _ _
      (allFalse_band_right _ _
        (by rw [from_sample_stats_hom_alt]; exact allFalse_map_false _))
      (allFalse_band_right _ _
        (by rw [from_sample_stats_hom_alt]; exact allFalse_map_false _))))
  · simp only [compute_stats, from_sample_stats_hom_alt, from_sample_stats_is_alt,
      from_sample_stats_covered, band, bor, bnot, List.map_map, zipWith_map_same]
    refine congrArg countTrue (map_congr_mem ?_)
    intro ss _
    cases h : ss.stats.genotype <;>
      cases hd : decide (((ss.stats.total_cov.getD 0 : Nat) : Int) > min_cov) <;>
        simp [h, hd, Function.comp]


/-- C4: the first compare run over the two-sample fixture store (no
similarity files yet) succeeds and writes one similarity file per sample;
running the same phase again over the store now holding those files does not
succeed: loading an existing `*-sim.json` file evaluates `stats.key` on the
decoded list and raises `AttributeError`, so no byte-identical rewrite ever
happens. -/
theorem compare_rerun_raises :
    compare_compare_run [fixStats1, fixStats2] [] 0 =
      Except.ok [{ name := "singleton1", pairs := [fixPair] },
                 { name := "singleton2", pairs := [fixPair] }] ∧
    compare_compare_run [fixStats1, fixStats2] [[fixPair], [fixPair]] 0 =
      Except.error "AttributeError: 'list' object has no attribute 'key'" :=
  ⟨by rfl, by rfl⟩

/-- On non-zero total depth, `call_genotype` reduces to the two-way threshold
comparison on the alt fraction. -/
theorem call_genotype_pos (t : ℚ) (r a : Nat) (h0 : r + a ≠ 0) :
    call_genotype t r a =
      (if (a : ℚ) / ((r + a : Nat) : ℚ) < t then some Genotype.REF
       else if 1 - t < (a : ℚ) / ((r + a : Nat) : ℚ) then some Genotype.HOM
       else some Genotype.HET) := by
  simp only [call_genotype, h0, if_false, gt_iff_lt, ite_eq_ite]

/-- C5 (counterexample): with `threshold = 1/4` and depths `(ref, alt) =
(3, 1)` the fraction equals the threshold exactly, yet the caller returns
`HET`, not the claimed `REF` (the `<` comparison is strict). -/
theorem call_genotype_boundary_counterexample :
    ((1 : Nat) : ℚ) / (((3 + 1 : Nat)) : ℚ) = 1 / 4 ∧
    call_genotype (1 / 4) 3 1 = some Genotype.HET ∧
    some Genotype.HET ≠ some Genotype.REF := by
  refine ⟨by norm_num, ?_, by simp⟩
  rw [call_genotype_pos (1 / 4) 3 1 (by norm_num)]
  norm_num

/-- C5 (amended): for every threshold `t ≤ 1/2`, zero total depth yields
no-call; otherwise with `frac = alt/(ref+alt)`: `frac < t` yields `REF`,
`frac > 1 - t` yields `HOM`, and `t ≤ frac ≤ 1 - t` yields `HET`; at the
boundaries both `frac = t` and `frac = 1 - t` yield `HET` (the comparisons
are strict, so neither boundary satisfies them). -/
theorem call_genotype_amended (t : ℚ) (r a : Nat) (ht : t ≤ 1 / 2) :
    (r + a = 0 → call_genotype t r a = none) ∧
    (r + a ≠ 0 → (a : ℚ) / ((r + a : Nat) : ℚ) < t →
      call_genotype t r a = some Genotype.REF) ∧
    (r + a ≠ 0 → 1 - t < (a : ℚ) / ((r + a : Nat) : ℚ) →
      call_genotype t r a = some Genotype.HOM) ∧
    (r + a ≠ 0 → t ≤ (a : ℚ) / ((r + a : Nat) : ℚ) →
      (a : ℚ) / ((r + a : Nat) : ℚ) ≤ 1 - t →
      call_genotype t r a = some Genotype.HET) ∧
    (r + a ≠ 0 → (a : ℚ) / ((r + a : Nat) : ℚ) = t →
      call_genotype t r a = some Genotype.HET) ∧
    (r + a ≠ 0 → (a : ℚ) / ((r + a : Nat) : ℚ) = 1 - t →
      call_genotype t r a = some Genotype.HET) := by
  refine ⟨fun h0 => by simp [call_genotype, h0], ?_, ?_, ?_, ?_, ?_⟩
  · intro h0 hlt
    rw [call_genotype_pos t r a h0, if_pos hlt]
  · intro h0 hgt
    have hnlt : ¬ ((a : ℚ) / ((r + a : Nat) : ℚ) < t) := by
      intro hlt
      linarith
    rw [call_genotype_pos t r a h0, if_neg hnlt, if_pos hgt]
  · intro h0 hge hle
    rw [call_genotype_pos t r a h0, if_neg (not_lt.mpr hge), if_neg (not_lt.mpr hle)]
  · intro h0 heq
    have hnlt : ¬ ((a : ℚ) / ((r + a : Nat) : ℚ) < t) := by
      rw [heq]
      exact lt_irrefl t
    have hngt : ¬ (1 - t < (a : ℚ) / ((r + a : Nat) : ℚ)) := by
      rw [heq]
      intro h
      linarith
    rw [call_genotype_pos t r a h0, if_neg hnlt, if_neg hngt]
  · intro h0 heq
    have hnlt : ¬ ((a : ℚ) / ((r + a : Nat) : ℚ) < t) := by
      rw [heq]
      intro h
      linarith
    have hngt : ¬ (1 - t < (a : ℚ) / ((r + a : Nat) : ℚ)) := by
      rw [heq]
      exact lt_irrefl _
    rw [call_genotype_pos t r a h0, if_neg hnlt, if_neg hngt]

/-- C5 (witness): the amended theorem applied at `t = 1/4`, `(ref, alt) =
(3, 1)`, whose fraction sits exactly on the `REF`/`HET` boundary. -/
theorem call_genotype_amended_witness :
    (1 / 4 : ℚ) ≤ 1 / 2 ∧
    ((3 + 1 = 0 → call_genotype (1 / 4) 3 1 = none) ∧
     (3 + 1 ≠ 0 → ((1 : Nat) : ℚ) / ((3 + 1 : Nat) : ℚ) < 1 / 4 →
       call_genotype (1 / 4) 3 1 = some Genotype.REF) ∧
     (3 + 1 ≠ 0 → 1 - 1 / 4 < ((1 : Nat) : ℚ) / ((3 + 1 : Nat) : ℚ) →
       call_genotype (1 / 4) 3 1 = some Genotype.HOM) ∧
     (3 + 1 ≠ 0 → 1 / 4 ≤ ((1 : Nat) : ℚ) / ((3 + 1 : Nat) : ℚ) →
       ((1 : Nat) : ℚ) / ((3 + 1 : Nat) : ℚ) ≤ 1 - 1 / 4 →
       call_genotype (1 / 4) 3 1 = some Genotype.HET) ∧
     (3 + 1 ≠ 0 → ((1 : Nat) : ℚ) / ((3 + 1 : Nat) : ℚ) = 1 / 4 →
       call_genotype (1 / 4) 3 1 = some Genotype.HET) ∧
     (3 + 1 ≠ 0 → ((1 : Nat) : ℚ) / ((3 + 1 : Nat) : ℚ) = 1 - 1 / 4 →
       call_genotype (1 / 4) 3 1 = some Genotype.HET)) :=
  ⟨by norm_num, call_genotype_amended (1 / 4) 3 1 (by norm_num)⟩

/-- C6: `revcomp` complements each base but does not reverse the order: on
the non-palindromic input `"AC"` it returns the base-wise complement `"TG"`,
whereas the reverse complement (reverse, then complement) is `"GT"`. -/
theorem revcomp_not_reversed :
    revcomp "AC" = "TG" ∧ spec_reverse_complement "AC" = "GT" ∧
    revcomp "AC" ≠ spec_reverse_complement "AC" := by
  decide

/-- C7 (counterexample): at a site whose tallies are all zero, the fastq
extraction path emits an absent genotype but stores the coverage fields as
the number `0` (`some 0`), not as absent values. -/
theorem fastq_zero_depth_counterexample :
    (siteStatsFromCounts (1 / 10) (fun _ => 0) fixKmerInfo).stats.genotype = none ∧
    (siteStatsFromCounts (1 / 10) (fun _ => 0) fixKmerInfo).stats.total_cov = some 0 ∧
    (siteStatsFromCounts (1 / 10) (fun _ => 0) fixKmerInfo).stats.alt_cov = some 0 ∧
    (siteStatsFromCounts (1 / 10) (fun _ => 0) fixKmerInfo).stats.total_cov ≠ none :=
  ⟨rfl, rfl, rfl, by decide⟩

/-- C7 (amended): whenever the tallied depths of a marker site sum to zero,
the emitted `VariantStats` has an absent genotype, but its `total_cov` and
`alt_cov` are the explicit number `0` (serialized as `0`, not as an absent
value). -/
theorem fastq_zero_depth_amended (t : ℚ) (counts : String → Nat)
    (ki : KmerInfo)
    (h : (counts ki.ref_kmer + counts (revcomp ki.ref_kmer)) +
         (counts ki.alt_kmer + counts (revcomp ki.alt_kmer)) = 0) :
    (siteStatsFromCounts t counts ki).stats =
      { genotype := none, total_cov := some 0, alt_cov := some 0 } := by
  have h1 : counts ki.ref_kmer + counts (revcomp ki.ref_kmer) = 0 := by omega
  have h2 : counts ki.alt_kmer + counts (revcomp ki.alt_kmer) = 0 := by omega
  simp [siteStatsFromCounts, call_genotype, h1, h2]

/-- C7 (witness): the amended theorem applied to the all-zero counter and the
fixture k-mer. -/
theorem fastq_zero_depth_amended_witness :
    (((fun _ => 0 : String → Nat) fixKmerInfo.ref_kmer +
        (fun _ => 0 : String → Nat) (revcomp fixKmerInfo.ref_kmer)) +
      ((fun _ => 0 : String → Nat) fixKmerInfo.alt_kmer +
        (fun _ => 0 : String → Nat) (revcomp fixKmerInfo.alt_kmer)) = 0) ∧
    (siteStatsFromCounts (1 / 10) (fun _ => 0) fixKmerInfo).stats =
      { genotype := none, total_cov := some 0, alt_cov := some 0 } :=
  ⟨rfl, fastq_zero_depth_amended (1 / 10) (fun _ => 0) fixKmerInfo rfl⟩

/-- C8: with unprefixed marker sites (first chromosome `"1"`) and a
`"chr"`-prefixed alignment source (first reference `"chr1"`), the chosen
transform is the add-prefix one, yet the BED intervals handed to the external
caller still carry the untransformed name `"1"`: `write_sites_bed` never
applies `func_pref`. -/
theorem bam_bed_unreconciled :
    strStarts (fixSite 1).chromosome "chr" = false ∧
    strStarts "chr1" "chr" = true ∧
    bam_extract_bed (fixSite 1) [] "chr1" =
      [{ chrom := "1", chromStart := 0, chromEnd := 1 }] ∧
    addChr (fixSite 1).chromosome = "chr1" ∧
    ("1" : String) ≠ "chr1" := by
  decide

/-- C10: `read_sites` consumes the first record in the outer loop before the
inner loop enumerates the remaining ones, so an input with exactly one record
yields an empty site list instead of the claimed one-site list. -/
theorem read_sites_skips_first :
    read_sites "GRCh37" [fixRecord] none = [] ∧
    read_sites "GRCh37" [fixRecord] none ≠ [siteOfRecord "GRCh37" fixRecord] := by
  decide

/-- Dict assignment adds only the assigned binding: any entry of the updated
dict is an old entry or the new key-value pair. -/
theorem mem_dictInsert {kappa alpha : Type} [DecidableEq kappa]
    {d : List (kappa × alpha)} {k : kappa} {v : alpha} {kv : kappa × alpha}
    (h : kv ∈ dictInsert d k v) : kv ∈ d ∨ kv = (k, v) := by
  unfold dictInsert at h
  split at h
  · rcases List.mem_map.mp h with ⟨kv', hkv', heq⟩
    by_cases hk : kv'.1 = k
    · right
      rw [← heq]
      simp [hk]
    · left
      rw [← heq]
      simp only [hk, if_false]
      exact hkv'
  · rcases List.mem_append.mp h with h | h
    · exact Or.inl h
    · right
      simpa using h

/-- A value found in a dict is bound in it under some key. -/
theorem dictGet_some_mem {kappa alpha : Type} [DecidableEq kappa]
    {d : List (kappa × alpha)} {k : kappa} {v : alpha}
    (h : dictGet d k = some v) : ∃ k', (k', v) ∈ d := by
  unfold dictGet at h
  cases hf : d.find? (fun kv => kv.1 = k) with
  | none => rw [hf] at h; simp at h
  | some kv =>
    rw [hf] at h
    simp at h
    refine ⟨kv.1, ?_⟩
    rw [← h]
    exact List.mem_of_find?_eq_some hf

/-- The similarity-loading phase only succeeds on an empty collection of
similarity files (every file triggers the `stats.key` attribute error), and
then yields the empty dict. -/
theorem load_sim_ok {sf : List (List SimilarityPair)}
    {d : List ((String × String) × SimValue)}
    (h : loadSimilarityPairs sf = Except.ok d) : d = [] := by
  cases sf with
  | nil =>
    simp only [loadSimilarityPairs] at h
    exact (Except.ok.inj h).symm
  | cons f rest =>
    simp [loadSimilarityPairs, pyListKeyAttr] at h

/-- Invariant of the inner compute loop: every dict value is a computed pair
whose sample names are in canonical (strictly increasing) order, provided the
incoming dict already satisfies this. -/
theorem computePairsInner_inv (left : NumpySampleStats)
    (rights : List NumpySampleStats) :
    ∀ known : List ((String × String) × SimValue),
    (∀ kv ∈ known, ∃ p, kv.2 = SimValue.pair p ∧ pyStrLt p.sample_i p.sample_j = true) →
    ∀ kv ∈ computePairsInner left rights known,
      ∃ p, kv.2 = SimValue.pair p ∧ pyStrLt p.sample_i p.sample_j = true := by
  induction rights with
  | nil =>
    intro known hk kv hkv
    simp only [computePairsInner] at hkv
    exact hk kv hkv
  | cons right rest ih =>
    intro known hk kv hkv
    simp only [computePairsInner] at hkv
    refine ih _ ?_ kv hkv
    intro kv' hkv'
    by_cases hcond :
        (pyStrLt left.stats.sample.name right.stats.sample.name &&
          !dictContains known (left.stats.sample.name, right.stats.sample.name)) = true
    · rw [if_pos hcond] at hkv'
      rcases mem_dictInsert hkv' with hold | hnew
      · exact hk kv' hold
      · refine ⟨compute_similarity left right, by rw [hnew], ?_⟩
        have h12 := hcond
        rw [Bool.and_eq_true] at h12
        exact h12.1
    · rw [if_neg hcond] at hkv'
      exact hk kv' hkv'

/-- Invariant of the outer compute loop. -/
theorem computePairs_inv (lefts : List NumpySampleStats) :
    ∀ (rights : List NumpySampleStats)
      (known : List ((String × String) × SimValue)),
    (∀ kv ∈ known, ∃ p, kv.2 = SimValue.pair p ∧ pyStrLt p.sample_i p.sample_j = true) →
    ∀ kv ∈ computePairs lefts rights known,
      ∃ p, kv.2 = SimValue.pair p ∧ pyStrLt p.sample_i p.sample_j = true := by
  induction lefts with
  | nil =>
    intro rights known hk kv hkv
    simp only [computePairs] at hkv
    exact hk kv hkv
  | cons left rest ih =>
    intro rights known hk kv hkv
    simp only [computePairs] at hkv
    exact ih rights _ (computePairsInner_inv left rights known hk) kv hkv

/-- Adding one pair to the per-sample output grouping preserves the
canonical-order property of all grouped pairs. -/
theorem addOutSim_inv
    {acc : List (String × List ((String × String) × SimilarityPair))}
    {name : String} {p : SimilarityPair}
    (hacc : ∀ nv ∈ acc, ∀ kp ∈ nv.2, pyStrLt kp.2.sample_i kp.2.sample_j = true)
    (hp : pyStrLt p.sample_i p.sample_j = true) :
    ∀ nv ∈ addOutSim acc name p, ∀ kp ∈ nv.2,
      pyStrLt kp.2.sample_i kp.2.sample_j = true := by
  intro nv hnv kp hkp
  unfold addOutSim at hnv
  rcases mem_dictInsert hnv with hold | hnew
  · exact hacc nv hold kp hkp
  · rw [hnew] at hkp
    rcases mem_dictInsert hkp with hinner | hnewkp
    · cases hdg : dictGet acc name with
      | none => rw [hdg] at hinner; simp at hinner
      | some inner =>
        rw [hdg] at hinner
        rcases dictGet_some_mem hdg with ⟨k', hk'⟩
        exact hacc (k', inner) hk' kp hinner
    · rw [hnewkp]
      exact hp

/-- Invariant of the write-phase grouping loop: on success, every grouped
pair is in canonical order, provided all dict values are. -/
theorem buildOutSims_inv (sims : List ((String × String) × SimValue)) :
    ∀ (acc : List (String × List ((String × String) × SimilarityPair)))
      (out : List (String × List ((String × String) × SimilarityPair))),
    (∀ kv ∈ sims, ∃ p, kv.2 = SimValue.pair p ∧ pyStrLt p.sample_i p.sample_j = true) →
    (∀ nv ∈ acc, ∀ kp ∈ nv.2, pyStrLt kp.2.sample_i kp.2.sample_j = true) →
    buildOutSims sims acc = Except.ok out →
    ∀ nv ∈ out, ∀ kp ∈ nv.2, pyStrLt kp.2.sample_i kp.2.sample_j = true := by
  induction sims with
  | nil =>
    intro acc out hs hacc hok
    simp only [buildOutSims] at hok
    rw [← Except.ok.inj hok]
    exact hacc
  | cons kv rest ih =>
    intro acc out hs hacc hok
    cases hv : kv.2 with
    | list l =>
      obtain ⟨k, v⟩ := kv
      simp only at hv
      rw [hv] at hok
      simp [buildOutSims] at hok
    | pair p =>
      obtain ⟨k, v⟩ := kv
      simp only at hv
      rw [hv] at hok
      simp only [buildOutSims] at hok
      have hp : pyStrLt p.sample_i p.sample_j = true := by
        rcases hs (k, v) (by simp) with ⟨p', hp', hlt⟩
        simp only [hv, SimValue.pair.injEq] at hp'
        rw [hp']
        exact hlt
      exact ih _ out (fun kv' hkv' => hs kv' (by simp [hkv']))
        (addOutSim_inv (addOutSim_inv hacc hp) hp) hok

/-- Membership in an insertion-sorted list comes from the inserted element or
the original list. -/
theorem mem_insertSorted {alpha : Type} (le : alpha → alpha → Bool) (x y : alpha) :
    ∀ l, y ∈ insertSorted le x l → y = x ∨ y ∈ l := by
  intro l
  induction l with
  | nil =>
    intro h
    simp [insertSorted] at h
    exact Or.inl h
  | cons a l ih =>
    intro h
    rw [insertSorted] at h
    split at h
    · rcases List.mem_cons.mp h with h | h
      · exact Or.inl h
      · exact Or.inr h
    · rcases List.mem_cons.mp h with h | h
      · exact Or.inr (by simp [h])
      · rcases ih h with h | h
        · exact Or.inl h
        · exact Or.inr (List.mem_cons_of_mem a h)

/-- Sorting the pair list of a similarity file does not add pairs. -/
theorem mem_sortSimPairs {p : SimilarityPair} :
    ∀ {l : List SimilarityPair}, p ∈ sortSimPairs l → p ∈ l := by
  intro l
  induction l with
  | nil => intro h; simpa [sortSimPairs] using h
  | cons a l ih =>
    intro h
    rcases mem_insertSorted simPairLeb a p (sortSimPairs l) h with h | h
    · simp [h]
    · exact List.mem_cons_of_mem a (ih h)

/-- C9: in every compare run that completes, every pair of every written
similarity file has `sample_i` strictly before `sample_j` in string order:
the compute phase only ever materializes keys with `name_i < name_j`, and the
write phase only regroups those pairs. -/
theorem compare_run_pairs_canonical (stats_files : List SampleStats)
    (sim_files : List (List SimilarityPair)) (min_cov : Int)
    (writes : List SimWrite)
    (h : compare_compare_run stats_files sim_files min_cov = Except.ok writes) :
    ∀ w ∈ writes, ∀ p ∈ w.pairs, pyStrLt p.sample_i p.sample_j = true := by
  unfold compare_compare_run at h
  cases hload : loadSimilarityPairs sim_files with
  | error e => rw [hload] at h; cases h
  | ok known =>
    rw [hload] at h
    have hkn := load_sim_ok hload
    subst hkn
    simp only [writeSimilarity] at h
    cases hbo : buildOutSims
        (computePairs
          ((loadSampleStats stats_files min_cov).map Prod.snd)
          ((loadSampleStats stats_files min_cov).map Prod.snd) []) [] with
    | error e => rw [hbo] at h; cases h
    | ok out =>
      rw [hbo] at h
      have hout := buildOutSims_inv _ [] out
        (computePairs_inv _ _ [] (by intro kv hkv; simp at hkv))
        (by intro nv hnv; simp at hnv) hbo
      intro w hw p hp
      rw [← Except.ok.inj h] at hw
      rcases List.mem_map.mp hw with ⟨nv, hnv, hweq⟩
      rw [← hweq] at hp
      simp only at hp
      rcases List.mem_map.mp (mem_sortSimPairs hp) with ⟨kp, hkp, hpe⟩
      rw [← hpe]
      exact hout nv hnv kp hkp

/-- C9 (witness): the canonical-order theorem applied to the successful first
run over the two-sample fixture store, evaluated at the concrete written
pair. -/
theorem compare_run_pairs_canonical_witness :
    pyStrLt fixPair.sample_i fixPair.sample_j = true :=
  compare_run_pairs_canonical [fixStats1, fixStats2] [] 0
    [{ name := "singleton1", pairs := [fixPair] },
     { name := "singleton2", pairs := [fixPair] }] (by rfl)
    { name := "singleton1", pairs := [fixPair] } (by simp)
    fixPair (by simp)
